import Mathlib

/-!
# Verification of the VCPToolBox asynchronous download / progress pipeline

Shallow embedding of the Python sources under `Plugin/ASMRTools/asmr_core/`
(`sync_downloader_simple.py`, `progress_manager.py`, `async_handler_fixed.py`,
`config.py`) and of the dispatcher in `Plugin/MissAVCrawl/missav_crawl_async.py`.

Modelling conventions:
* Python `float` time stamps, progress percentages and rates are modelled as `ℚ`;
  every concrete value used in a theorem below is exactly representable in
  binary floating point, so the embedded arithmetic agrees with the source.
* Python `int(x)` (truncation toward zero) is `truncInt`.
* Python dictionaries that are used in insertion order are association lists;
  `dictInsert` reproduces CPython's insert-or-overwrite-in-place semantics.
* File-system and network effects are supplied by explicit environment records,
  and every persisted JSON snapshot becomes one entry of an explicit write log.
-/

namespace VCP

/-- Python `int(q)`: truncation toward zero. -/
def truncInt (q : ℚ) : ℤ :=
  if 0 ≤ q then ⌊q⌋ else -⌊-q⌋

/-- Python `str.strip(chars)`: drop the given characters from both ends. -/
def pyStrip (cs : List Char) (s : List Char) : List Char :=
  ((s.dropWhile (· ∈ cs)).reverse.dropWhile (· ∈ cs)).reverse

/-- Model of `str.strip('/')`, used to normalise path scopes. -/
def stripSlashes (s : String) : String :=
  ⟨pyStrip ['/'] s.data⟩

/-- CPython dict assignment `d[k] = v` on an insertion-ordered association list:
an existing key keeps its position and gets the new value, a new key is appended. -/
def dictInsert {α : Type} (d : List (String × α)) (k : String) (v : α) :
    List (String × α) :=
  if d.any (fun p => p.1 = k) then
    d.map (fun p => if p.1 = k then (k, v) else p)
  else d ++ [(k, v)]

/-- Joining path segments with `/`, the shape produced by the `f"{base}/{name}"`
concatenations of the source. -/
def joinPath : List String → String
  | [] => ""
  | s :: rest => if rest.isEmpty then s else s ++ "/" ++ joinPath rest

/-! ## `SyncDownloaderSimple._sanitize_filename` -/

/-- The characters replaced by `re.sub(r'[<>:"/\\|?*]', '_', filename)`. -/
def illegalChars : List Char := ['<', '>', ':', '"', '/', '\\', '|', '?', '*']

/-- The characters removed by `filename.strip('. ')`. -/
def stripSet : List Char := ['.', ' ']

/-- Model of `SyncDownloaderSimple._sanitize_filename`: replace illegal characters by `_`,
strip leading/trailing dots and spaces, fall back to `"unnamed_file"` if empty. -/
def sanitize_filename (filename : String) : String :=
  let replaced := filename.data.map (fun c => if c ∈ illegalChars then '_' else c)
  let stripped := pyStrip stripSet replaced
  if stripped.isEmpty then "unnamed_file" else ⟨stripped⟩

/-! ## Track trees and `SyncDownloaderSimple._extract_files_from_tracks` -/

/-- One node of the `tracks` JSON returned by the `/api/tracks` endpoint:
the source branches on `track.get("type") == "folder"`. -/
inductive Track where
  | folder (title : String) (children : List Track)
  | file (title : String) (mediaDownloadUrl : String) (size : ℕ)

/-- One entry of the flat file list built by `_extract_files_from_tracks`. -/
structure FileInfo where
  title : String
  mediaDownloadUrl : String
  path : String
  filename : String
  size : ℕ
deriving Repr, DecidableEq, Inhabited

mutual

/-- The body of the `for track in tracks:` loop of
`_extract_files_from_tracks` for one track. -/
def extract_from_track : Track → String → List FileInfo
  | Track.folder title children, base_path =>
      let folder_path :=
        if base_path = "" then sanitize_filename title
        else base_path ++ "/" ++ sanitize_filename title
      extract_files_from_tracks children folder_path
  | Track.file title url size, base_path =>
      [{ title := title, mediaDownloadUrl := url, path := base_path,
         filename := sanitize_filename title, size := size }]

/-- Model of `SyncDownloaderSimple._extract_files_from_tracks`: recursively flatten the
track tree, concatenating sanitized folder names into each file's path. -/
def extract_files_from_tracks : List Track → String → List FileInfo
  | [], _ => []
  | track :: rest, base_path =>
      extract_from_track track base_path ++ extract_files_from_tracks rest base_path

end

mutual

/-- Number of leaf (non-folder) nodes below one track node. -/
def leafCountTrack : Track → ℕ
  | Track.folder _ children => leafCount children
  | Track.file _ _ _ => 1

/-- Number of leaf (non-folder) nodes of a track forest. -/
def leafCount : List Track → ℕ
  | [] => 0
  | track :: rest => leafCountTrack track + leafCount rest

end

/-- The full relative path of an extracted file, as composed by
`download_single_file` / `_filter_files_by_path`
(`f"{file_path}/{filename}" if file_path else filename`). -/
def FileInfo.fullPath (fi : FileInfo) : String :=
  if fi.path ≠ "" then fi.path ++ "/" ++ fi.filename else fi.filename

/-! ## `SyncDownloaderSimple._path_matches` / `_filter_files_by_path` -/

/-- Python `s.split(sep)` for a single-character separator, at the character
level (`"".split -> [""]`, separators at the ends produce empty pieces). -/
def splitOnChar (sep : Char) : List Char → List (List Char)
  | [] => [[]]
  | c :: rest =>
      let r := splitOnChar sep rest
      if c = sep then [] :: r
      else (c :: r.headI) :: r.tail

/-- Python `s.startswith(pre)`. -/
def strStartsWith (s pre : String) : Bool :=
  List.isPrefixOf pre.data s.data

/-- The parent-directory expression of `_path_matches`:
`'/'.join(file_path.split('/')[:-1]) if '/' in file_path else ""`. -/
def parentDir (p : String) : String :=
  if p.data.contains '/' then
    joinPath (((splitOnChar '/' p.data).map (fun l => (⟨l⟩ : String))).dropLast)
  else ""

/-- Model of `SyncDownloaderSimple._path_matches`. -/
def path_matches (file_path target_path : String) : Bool :=
  let fp := stripSlashes file_path
  let tp := stripSlashes target_path
  if tp = "" then true
  else if fp = tp then true
  else if strStartsWith fp (tp ++ "/") then true
  else parentDir fp = tp

/-- Model of `SyncDownloaderSimple._filter_files_by_path`. -/
def filter_files_by_path (all_files : List FileInfo) (target_path : String) :
    List FileInfo :=
  let tp := stripSlashes target_path
  all_files.filter (fun fi => path_matches fi.fullPath tp)

/-- The matching rule exactly as the spec words it (§4.3 `filterByPath`):
the scope is normalised, but the item's full relative path is used as is —
it "matches if: scope is empty; or an item's full relative path equals scope
exactly; or the item's path is nested under `scope/`; or the item's immediate
parent directory equals scope exactly". Written from the spec, to be compared
with `path_matches`. -/
def spec_path_matches (full_path scope : String) : Bool :=
  let s := stripSlashes scope
  if s = "" then true
  else if full_path = s then true
  else if strStartsWith full_path (s ++ "/") then true
  else parentDir full_path = s

/-! ## `SyncDownloaderSimple._build_file_structure` and
`async_handler_fixed.get_file_size_from_structure` -/

/-- One value of the `file_structure` dict: either
`{"type": "file", "size": …, "url": …}` or
`{"type": "folder", "children": …, "file_count": …}`. -/
inductive FSNode where
  | file (size : ℕ) (url : String)
  | folder (children : List (String × FSNode)) (fileCount : ℕ)

/-- Model of `SyncDownloaderSimple._count_files_in_structure`: files count 1, folders
contribute their stored `file_count`. -/
def count_files_in_structure : List (String × FSNode) → ℕ
  | [] => 0
  | (_, FSNode.file _ _) :: rest => 1 + count_files_in_structure rest
  | (_, FSNode.folder _ fc) :: rest => fc + count_files_in_structure rest

mutual

/-- The body of the `for track in tracks:` loop of `_build_file_structure`
for one track: insert the corresponding dict entry into the accumulator. -/
def build_structure_entry : Track → String → List (String × FSNode) →
    List (String × FSNode)
  | Track.folder title children, base_path, acc =>
      let folder_name := sanitize_filename title
      let child_structure :=
        build_file_structure_loop children
          (if base_path = "" then folder_name else base_path ++ "/" ++ folder_name) []
      dictInsert acc folder_name
        (FSNode.folder child_structure (count_files_in_structure child_structure))
  | Track.file title url size, _, acc =>
      dictInsert acc (sanitize_filename title) (FSNode.file size url)

/-- Model of `SyncDownloaderSimple._build_file_structure`, written with the explicit
dict accumulator that models the Python dict being filled in track order. -/
def build_file_structure_loop :
    List Track → String → List (String × FSNode) → List (String × FSNode)
  | [], _, acc => acc
  | track :: rest, base_path, acc =>
      build_file_structure_loop rest base_path (build_structure_entry track base_path acc)

end

/-- Model of `SyncDownloaderSimple._build_file_structure`. -/
def build_file_structure (tracks : List Track) (base_path : String) :
    List (String × FSNode) :=
  build_file_structure_loop tracks base_path []

mutual

/-- The recursive descent of `search_structure` into one folder value
(`search_structure(value["children"])`); a file value reached here is never
descended into by the source and contributes nothing. -/
def search_subtree (filename : String) : FSNode → ℕ
  | FSNode.file _ _ => 0
  | FSNode.folder children _ => search_structure filename children

/-- The inner `search_structure` of `get_file_size_from_structure`:
a file entry whose key equals the bare filename returns its size immediately;
a folder is searched recursively, but its result is propagated only when
positive. -/
def search_structure (filename : String) : List (String × FSNode) → ℕ
  | [] => 0
  | (key, node) :: rest =>
      match node with
      | FSNode.file size _ =>
          if key = filename then size else search_structure filename rest
      | FSNode.folder _ _ =>
          let size := search_subtree filename node
          if size > 0 then size else search_structure filename rest

end

/-- Model of `async_handler_fixed.get_file_size_from_structure`. -/
def get_file_size_from_structure (file_structure : List (String × FSNode))
    (filename : String) : ℕ :=
  search_structure filename file_structure

mutual

/-- Matches of `dfsMatches` inside one dict value. -/
def dfsMatchesNode (filename : String) : FSNode → List ℕ
  | FSNode.file _ _ => []
  | FSNode.folder children _ => dfsMatches filename children

/-- All sizes of file entries whose key equals `filename`, in the depth-first
order in which `search_structure` visits them. Written from the claim's words
("a depth-first search of the file-structure tree, returning the first match"),
to be compared with `get_file_size_from_structure`. -/
def dfsMatches (filename : String) : List (String × FSNode) → List ℕ
  | [] => []
  | (key, node) :: rest =>
      match node with
      | FSNode.file size _ =>
          (if key = filename then [size] else []) ++ dfsMatches filename rest
      | FSNode.folder _ _ =>
          dfsMatchesNode filename node ++ dfsMatches filename rest

end

/-! ## `progress_manager.ProgressManager` -/

/-- One entry of `ProgressManager._progress_history`. -/
structure Sample where
  time : ℚ
  progress : ℚ
  completed_files : ℕ
  downloaded_bytes : ℕ
  total_bytes : ℕ
deriving Repr, DecidableEq, Inhabited

/-- Model of `work_info` as the progress manager reads it
(`work_info.get('source_id', …)`, `work_info.get('title', …)`). -/
structure WorkInfo where
  source_id : String
  title : String
deriving Repr, DecidableEq, Inhabited

/-- One persisted progress record (`VCPAsyncResults/ASMRTools-<task>.json`),
restricted to the fields the claims talk about; every `update_progress` call
overwrites the file, so the run is modelled as the ordered log of these
records. `progress` is `none` when the write carries no `progress` key
(`update_failed`). The human-readable `message` and the formatted
`downloadSpeed` string are display-only and not modelled. -/
structure Snapshot where
  status : String
  progress : Option ℚ
  eta : Option String
  completedFiles : Option ℕ
  totalFiles : Option ℕ
  currentFile : Option String
  completedFilesList : Option (List String)
  failedFilesList : Option (List String)
  downloadedBytes : Option ℕ
  totalBytes : Option ℕ
  reason : Option String
deriving Repr, DecidableEq, Inhabited

/-- The mutable attributes of one `ProgressManager` instance.
`last_progress = none` models the absence of the `_last_progress` attribute
(`hasattr`), likewise `last_eta_seconds`. -/
structure PMState where
  update_interval : ℚ
  last_update_time : ℚ
  start_time : ℚ
  progress_history : List Sample
  completed_files_list : List String
  file_structure : List (String × FSNode)
  last_progress : Option ℚ
  last_eta_seconds : Option ℤ

/-- Model of `ProgressManager.__init__` (the results-directory handling is I/O only). -/
def PMState.init (interval : ℚ) : PMState :=
  { update_interval := interval, last_update_time := 0, start_time := 0,
    progress_history := [], completed_files_list := [], file_structure := [],
    last_progress := none, last_eta_seconds := none }

/-- Two-digit zero padding, Python's `f"{n:02d}"` for the values that occur. -/
def pad2 (n : ℤ) : String :=
  if 0 ≤ n ∧ n < 10 then "0" ++ toString n else toString n

/-- The shared display-range block of `_calculate_eta` and
`_calculate_eta_by_progress` (`">2h"` above 7200 s, `"{h}h{mm:02d}m"` above
3600 s, otherwise `"{mm:02d}:{ss:02d}"`; Python `//` and `%` are `fdiv`/`fmod`). -/
def format_eta (eta_seconds : ℤ) : String :=
  if eta_seconds > 7200 then ">2h"
  else if eta_seconds > 3600 then
    toString (eta_seconds.fdiv 3600) ++ "h" ++ pad2 ((eta_seconds.fmod 3600).fdiv 60) ++ "m"
  else pad2 (eta_seconds.fdiv 60) ++ ":" ++ pad2 (eta_seconds.fmod 60)

/-- Model of `ProgressManager._calculate_eta_by_progress` (the percent-rate fallback);
it never touches `_last_eta_seconds`. -/
def calculate_eta_by_progress (recent_history : List Sample)
    (current_progress total_time_diff : ℚ) : String :=
  let total_progress_diff :=
    recent_history.getLastI.progress - recent_history.headI.progress
  if total_progress_diff ≤ 0 then "--:--"
  else
    let progress_rate := total_progress_diff / total_time_diff
    let remaining_progress := 100 - current_progress
    if progress_rate ≤ 0 then "--:--"
    else format_eta (truncInt (remaining_progress / progress_rate))

/-- The control flow of `ProgressManager._calculate_eta`, returning the value
assigned to `_last_eta_seconds` (`none` when the paths that leave it untouched
are taken) together with the display string. -/
def calculate_eta_assign (pm : PMState) (current_progress : ℚ) :
    Option ℤ × String :=
  if current_progress ≤ 0 ∨ 100 ≤ current_progress then (none, "--:--")
  else if pm.progress_history.length < 2 then (none, "--:--")
  else
    let n := pm.progress_history.length
    let recent_history := pm.progress_history.drop (n - min 8 n)
    let total_time_diff := recent_history.getLastI.time - recent_history.headI.time
    if total_time_diff < 3 then (none, "--:--")
    else if recent_history.getLastI.total_bytes > 0 ∧
            recent_history.getLastI.downloaded_bytes > 0 then
      let bytes_diff : ℤ := (recent_history.getLastI.downloaded_bytes : ℤ) -
        (recent_history.headI.downloaded_bytes : ℤ)
      if bytes_diff > 0 then
        let bytes_per_second : ℚ := (bytes_diff : ℚ) / total_time_diff
        let remaining_bytes : ℤ := (recent_history.getLastI.total_bytes : ℤ) -
          (recent_history.getLastI.downloaded_bytes : ℤ)
        if remaining_bytes > 0 then
          let eta_raw : ℤ := truncInt ((remaining_bytes : ℚ) / bytes_per_second)
          let eta_seconds : ℤ :=
            match pm.last_eta_seconds with
            | some l =>
                if 0 < l ∧ (l : ℚ) * (2 / 5) < |(eta_raw : ℚ) - (l : ℚ)| then
                  truncInt ((7 / 10 : ℚ) * (l : ℚ) + (3 / 10 : ℚ) * (eta_raw : ℚ))
                else eta_raw
            | none => eta_raw
          (some eta_seconds, format_eta eta_seconds)
        else (none, "00:00")
      else (none, calculate_eta_by_progress recent_history current_progress total_time_diff)
    else (none, calculate_eta_by_progress recent_history current_progress total_time_diff)

/-- Model of `ProgressManager._calculate_eta`. Returns the (possibly updated) state —
the byte path assigns `_last_eta_seconds` — together with the display string.
`current_time` is accepted but, as in the source, unused. -/
def calculate_eta (pm : PMState) (current_progress : ℚ) (_current_time : ℚ) :
    PMState × String :=
  match calculate_eta_assign pm current_progress with
  | (some e, s) => ({ pm with last_eta_seconds := some e }, s)
  | (none, s) => (pm, s)

/-- Model of `ProgressManager.update_progress`: the unconditional write path; every call
overwrites the job's progress file, modelled as emitting one snapshot. -/
def update_progress (pm : PMState) (snap : Snapshot) : PMState × List Snapshot :=
  (pm, [snap])

/-- Model of `ProgressManager.update_starting`. -/
def update_starting (pm : PMState) (t : ℚ) : PMState × List Snapshot :=
  let pm := { pm with start_time := t, progress_history := [],
                      completed_files_list := [], file_structure := [],
                      last_eta_seconds := some 0 }
  update_progress pm
    { status := "Starting", progress := some 0, eta := some "--:--",
      completedFiles := some 0, totalFiles := some 0, currentFile := some "",
      completedFilesList := some [], failedFilesList := none,
      downloadedBytes := none, totalBytes := none, reason := none }

/-- Model of `ProgressManager.update_preparing`. -/
def update_preparing (pm : PMState) (total_files : ℕ)
    (file_structure : List (String × FSNode)) : PMState × List Snapshot :=
  let pm := if file_structure.isEmpty then pm else { pm with file_structure := file_structure }
  update_progress pm
    { status := "Preparing", progress := some 5, eta := none,
      completedFiles := none, totalFiles := some total_files, currentFile := none,
      completedFilesList := none, failedFilesList := none,
      downloadedBytes := none, totalBytes := none, reason := none }

/-- Model of `ProgressManager.update_success`: written unconditionally; note the literal
status string `"Succeed"`. `download_result` fields are passed individually. -/
def update_success (pm : PMState) (success_count total_tracks : ℕ)
    (completed_downloads failed_downloads : List String) : PMState × List Snapshot :=
  update_progress pm
    { status := "Succeed", progress := some 100, eta := none,
      completedFiles := some success_count, totalFiles := some total_tracks,
      currentFile := none, completedFilesList := some completed_downloads,
      failedFilesList := some failed_downloads,
      downloadedBytes := none, totalBytes := none, reason := none }

/-- Model of `ProgressManager.update_failed`: written unconditionally, carries a
`reason` but no `progress` field. -/
def update_failed (pm : PMState) (reason : String) : PMState × List Snapshot :=
  update_progress pm
    { status := "Failed", progress := none, eta := none,
      completedFiles := none, totalFiles := none, currentFile := none,
      completedFilesList := none, failedFilesList := none,
      downloadedBytes := none, totalBytes := none, reason := some reason }

/-- Model of `ProgressManager.update_download_progress`: always records a history
sample (capped at the most recent 15) and always runs the ETA computation;
the snapshot itself is emitted only when the interval has elapsed
(`current_time - last_update_time >= update_interval`) or the progress moved
by more than one point since `_last_progress` — which is updated only by this
significant-change branch — or `_last_progress` does not exist yet. -/
def update_download_progress (pm : PMState) (progress_percent : ℚ)
    (completed_files total_files : ℕ) (current_file : String)
    (completed_files_list : List String) (downloaded_bytes total_bytes : ℕ)
    (current_time : ℚ) : PMState × List Snapshot :=
  let pm := if completed_files_list ≠ [] then
      { pm with completed_files_list := completed_files_list } else pm
  let hist := pm.progress_history ++
    [{ time := current_time, progress := progress_percent,
       completed_files := completed_files, downloaded_bytes := downloaded_bytes,
       total_bytes := total_bytes }]
  let hist := if hist.length > 15 then hist.drop (hist.length - 15) else hist
  let pm := { pm with progress_history := hist }
  let should_by_time := pm.update_interval ≤ current_time - pm.last_update_time
  let significant :=
    1 < |progress_percent - pm.last_progress.getD 0| ∨ pm.last_progress = none
  let pm := if significant then { pm with last_progress := some progress_percent } else pm
  let should_update_file := should_by_time ∨ significant
  let eta_str := (calculate_eta pm progress_percent current_time).2
  let pm := (calculate_eta pm progress_percent current_time).1
  if should_update_file then
    ({ pm with last_update_time := current_time },
     [{ status := "Downloading", progress := some progress_percent,
        eta := some eta_str, completedFiles := some completed_files,
        totalFiles := some total_files, currentFile := some current_file,
        completedFilesList := some pm.completed_files_list,
        failedFilesList := none, downloadedBytes := some downloaded_bytes,
        totalBytes := some total_bytes, reason := none }])
  else (pm, [])

/-! ## `SyncDownloaderSimple.download_single_file` / `download_tracks`

File-system and network effects are supplied by a `FileEnv` per work item;
`time.time()` samples are the recorded timestamps of the environment. -/

/-- The dict handed to the progress callback by `download_single_file`. -/
structure ProgressInfo where
  filename : String
  status : String
  completed_length : ℕ
  total_length : ℕ
  download_speed : ℕ
  progress_percent : ℚ
deriving Repr, DecidableEq, Inhabited

/-- One chunk of `response.iter_content(chunk_size=65536)` together with the
wall-clock time at which it is processed. -/
structure NetChunk where
  len : ℕ
  time : ℚ
deriving Repr, DecidableEq, Inhabited

/-- The environment of one `download_single_file` call: the `stat` of a
pre-existing destination file, the HTTP status, the `content-length` header,
the streamed chunks, and the times at which the item starts and finishes. -/
structure FileEnv where
  start_time : ℚ
  existing_size : Option ℕ
  status_code : ℕ
  content_length : ℕ
  chunks : List NetChunk
  end_time : ℚ
deriving Repr, DecidableEq, Inhabited

/-- What one `download_single_file` call produced: its boolean result, the
callback invocations (each paired with the `time.time()` instant of the call),
the bytes streamed from the network, and the number of HTTP requests made. -/
structure FetchOutcome where
  success : Bool
  events : List (ProgressInfo × ℚ)
  bytes_transferred : ℕ
  network_requests : ℕ
deriving Repr, DecidableEq, Inhabited

/-- The `for chunk in response.iter_content(...)` loop of
`download_single_file`: empty chunks are skipped (`if chunk:`); an `active`
callback fires at most once per 2 seconds. Python's
`int(downloaded/elapsed) if elapsed > 0 else 0` is the speed. -/
def chunk_loop (filename : String) (total_size : ℕ) (start_time : ℚ) :
    List NetChunk → ℕ → ℚ → ℕ × List (ProgressInfo × ℚ)
  | [], downloaded_size, _ => (downloaded_size, [])
  | c :: rest, downloaded_size, last_progress_time =>
      if c.len = 0 then chunk_loop filename total_size start_time rest downloaded_size last_progress_time
      else
        let downloaded_size := downloaded_size + c.len
        let elapsed_time := c.time - start_time
        let download_speed : ℕ :=
          if 0 < elapsed_time then (truncInt ((downloaded_size : ℚ) / elapsed_time)).toNat else 0
        let progress_percent : ℚ :=
          if 0 < total_size then (downloaded_size : ℚ) / (total_size : ℚ) * 100 else 0
        if 2 ≤ c.time - last_progress_time then
          let (d, evs) := chunk_loop filename total_size start_time rest downloaded_size c.time
          (d, ({ filename := filename, status := "active",
                 completed_length := downloaded_size, total_length := total_size,
                 download_speed := download_speed,
                 progress_percent := progress_percent }, c.time) :: evs)
        else chunk_loop filename total_size start_time rest downloaded_size last_progress_time

/-- The streaming part of `download_single_file` once the URL and existence
checks have passed: non-200 fails with no events; otherwise the chunks are
written and a final `complete` callback fires. -/
def download_via_network (fi : FileInfo) (env : FileEnv) : FetchOutcome :=
  if env.status_code ≠ 200 then
    { success := false, events := [], bytes_transferred := 0, network_requests := 1 }
  else
    let total_size := env.content_length
    let (downloaded_size, events) := chunk_loop fi.filename total_size env.start_time env.chunks 0 0
    { success := true,
      events := events ++
        [({ filename := fi.filename, status := "complete",
            completed_length := downloaded_size, total_length := total_size,
            download_speed := 0, progress_percent := 100 }, env.end_time)],
      bytes_transferred := downloaded_size, network_requests := 1 }

/-- Model of `SyncDownloaderSimple.download_single_file`: an empty URL fails before any
other check; an existing destination file of positive size short-circuits to a
single `skipped` callback with no network traffic. -/
def download_single_file (fi : FileInfo) (env : FileEnv) : FetchOutcome :=
  if fi.mediaDownloadUrl = "" then
    { success := false, events := [], bytes_transferred := 0, network_requests := 0 }
  else
    match env.existing_size with
    | some n =>
        if 0 < n then
          { success := true,
            events := [({ filename := fi.filename, status := "skipped",
                          completed_length := n, total_length := n,
                          download_speed := 0, progress_percent := 100 }, env.start_time)],
            bytes_transferred := 0, network_requests := 0 }
        else download_via_network fi env
    | none => download_via_network fi env

/-- The result of the sequential loop of `download_tracks`, threading an
arbitrary stateful callback `cb` (state type `σ`) through every emitted
progress event; `envs i` is the environment of the `i`-th item. -/
structure RunAcc (σ : Type) where
  completed_downloads : List String
  failed_downloads : List String
  bytes_transferred : ℕ
  network_requests : ℕ
  state : σ

/-- The `for file_info in all_files:` loop of `download_tracks`. -/
def run_files {σ : Type} (cb : σ → ProgressInfo → ℚ → σ) (envs : ℕ → FileEnv) :
    List FileInfo → ℕ → σ → RunAcc σ
  | [], _, s =>
      { completed_downloads := [], failed_downloads := [],
        bytes_transferred := 0, network_requests := 0, state := s }
  | fi :: rest, i, s =>
      let out := download_single_file fi (envs i)
      let s := out.events.foldl (fun st e => cb st e.1 e.2) s
      let acc := run_files cb envs rest (i + 1) s
      { completed_downloads :=
          if out.success then fi.filename :: acc.completed_downloads
          else acc.completed_downloads,
        failed_downloads :=
          if out.success then acc.failed_downloads
          else fi.filename :: acc.failed_downloads,
        bytes_transferred := out.bytes_transferred + acc.bytes_transferred,
        network_requests := out.network_requests + acc.network_requests,
        state := acc.state }

/-- The aggregate dict returned by `download_tracks`. -/
structure DownloadResult where
  work_title : String
  download_dir : String
  total_tracks : ℕ
  success_count : ℕ
  failed_count : ℕ
  completed_downloads : List String
  failed_downloads : List String
deriving Repr, DecidableEq, Inhabited

/-- Model of `SyncDownloaderSimple.download_tracks`: derive the destination directory,
extract and (when a target path is given) filter the manifest, then download
sequentially, accumulating completed and failed filename lists. -/
def download_tracks {σ : Type} (download_path : String) (tracks : List Track)
    (work_info : WorkInfo) (cb : σ → ProgressInfo → ℚ → σ) (target_path : String)
    (envs : ℕ → FileEnv) (s : σ) : DownloadResult × RunAcc σ :=
  let safe_title := sanitize_filename work_info.title
  let download_dir := download_path ++ "/asmr/" ++ work_info.source_id ++ " - " ++ safe_title
  let all_files := extract_files_from_tracks tracks ""
  let all_files :=
    if target_path ≠ "" then filter_files_by_path all_files target_path else all_files
  let acc := run_files cb envs all_files 0 s
  ({ work_title := work_info.title, download_dir := download_dir,
     total_tracks := all_files.length,
     success_count := acc.completed_downloads.length,
     failed_count := acc.failed_downloads.length,
     completed_downloads := acc.completed_downloads,
     failed_downloads := acc.failed_downloads }, acc)

/-! ## `async_handler_fixed.perform_download_sync` -/

/-- The closure state captured by `progress_callback` in
`perform_download_sync` (`nonlocal completed_files, current_file,
completed_files_list, downloaded_bytes`), the progress-manager instance, and
the accumulated write log. -/
structure CbState where
  completed_files : ℕ
  current_file : String
  completed_files_list : List String
  downloaded_bytes : ℕ
  pm : PMState
  log : List Snapshot

/-- The `progress_callback` closure of `perform_download_sync`: `complete` and
`skipped` events count the file and add its declared size once (guarded by
membership in `completed_files_list`); `active` events recompute
`downloaded_bytes` as the sum of the completed files' declared sizes plus the
current item's partial length; the overall percentage is byte-based when
`total_bytes > 0`, else file-count based. -/
def progress_callback_counters (file_sizes : String → ℕ) (st : CbState)
    (info : ProgressInfo) : CbState :=
  let st :=
    if info.status = "complete" ∨ info.status = "skipped" then
      let st := { st with completed_files := st.completed_files + 1 }
      if info.filename ≠ "" ∧ info.filename ∉ st.completed_files_list then
        { st with completed_files_list := st.completed_files_list ++ [info.filename],
                  downloaded_bytes := st.downloaded_bytes + file_sizes info.filename }
      else st
    else if info.status = "active" then
      let temp := (st.completed_files_list.map file_sizes).sum + info.completed_length
      { st with downloaded_bytes := temp }
    else st
  if info.filename ≠ "" then { st with current_file := info.filename } else st

/-- The full `progress_callback` closure: update the counters, compute the
overall percentage (byte-based when `total_bytes > 0`, else file-count
based), and run the throttled `update_download_progress`. -/
def progress_callback (file_sizes : String → ℕ) (total_bytes total_files : ℕ)
    (st : CbState) (info : ProgressInfo) (now : ℚ) : CbState :=
  let st := progress_callback_counters file_sizes st info
  let overall_progress : ℚ :=
    if 0 < total_bytes then (st.downloaded_bytes : ℚ) / (total_bytes : ℚ) * 100
    else if 0 < total_files then (st.completed_files : ℚ) / (total_files : ℚ) * 100
    else 0
  let upd := update_download_progress st.pm overall_progress
    st.completed_files total_files st.current_file st.completed_files_list
    st.downloaded_bytes total_bytes now
  { st with pm := upd.1, log := st.log ++ upd.2 }

/-- The environment of one `perform_download_sync` run: configuration
validity, the HTTP status of the three metadata calls, the parsed track tree,
the per-item download environments, and the wall-clock time of the first
snapshot. The `interval` is `ASMRConfig.progress_update_interval`
(default 30). -/
structure JobEnv where
  interval : ℚ
  configValid : Bool
  loginStatus : ℕ
  workStatus : ℕ
  tracksStatus : ℕ
  work_id : String
  work_info : WorkInfo
  tracks : List Track
  envs : ℕ → FileEnv
  t_start : ℚ
  download_path : String

/-- What one `perform_download_sync` run produced: the ordered log of progress
snapshots persisted for the job, the `status` of the returned dict, the
download aggregate of the main path, and the total network traffic. -/
structure JobOutput where
  log : List Snapshot
  resultStatus : String
  result : Option DownloadResult
  bytes_transferred : ℕ
  network_requests : ℕ

/-- Model of `async_handler_fixed.perform_download_sync`: write `Starting`, fail fast on
invalid configuration / login / work / tracks, otherwise write `Preparing`,
download every file sequentially with the throttled progress callback, and
finish with exactly one unconditional terminal write — `update_success`
(status `"Succeed"`) when at least one file succeeded, else `update_failed`. -/
def perform_download_sync (env : JobEnv) (target_path : String) : JobOutput :=
  let started := update_starting (PMState.init env.interval) env.t_start
  let pm := started.1
  let l1 := started.2
  if ¬env.configValid then
    { log := l1 ++ (update_failed pm "Invalid configuration: username and password are required").2,
      resultStatus := "Failed", result := none,
      bytes_transferred := 0, network_requests := 0 }
  else if env.loginStatus ≠ 200 then
    { log := l1 ++ (update_failed pm ("Login failed: " ++ toString env.loginStatus)).2,
      resultStatus := "Failed", result := none,
      bytes_transferred := 0, network_requests := 0 }
  else if env.workStatus ≠ 200 then
    { log := l1 ++ (update_failed pm ("Work not found: " ++ env.work_id)).2,
      resultStatus := "Failed", result := none,
      bytes_transferred := 0, network_requests := 0 }
  else if env.tracksStatus ≠ 200 then
    { log := l1 ++ (update_failed pm "No tracks found for this work").2,
      resultStatus := "Failed", result := none,
      bytes_transferred := 0, network_requests := 0 }
  else
    let all_files₀ := extract_files_from_tracks env.tracks ""
    let all_files :=
      if target_path ≠ "" then filter_files_by_path all_files₀ target_path else all_files₀
    let total_files := all_files.length
    let file_structure := build_file_structure env.tracks ""
    let prepared := update_preparing pm total_files file_structure
    let l2 := prepared.2
    let file_sizes : String → ℕ := fun f =>
      if all_files.any (fun fi => fi.filename = f) then
        get_file_size_from_structure file_structure f
      else 0
    let total_bytes :=
      (all_files.map (fun fi => get_file_size_from_structure file_structure fi.filename)).sum
    let st₀ : CbState :=
      { completed_files := 0, current_file := "", completed_files_list := [],
        downloaded_bytes := 0, pm := prepared.1, log := [] }
    let dl := download_tracks env.download_path env.tracks
      env.work_info (progress_callback file_sizes total_bytes total_files)
      target_path env.envs st₀
    let download_result := dl.1
    let acc := dl.2
    if 0 < download_result.success_count then
      { log := l1 ++ l2 ++ acc.state.log ++
          (update_success acc.state.pm download_result.success_count
            download_result.total_tracks download_result.completed_downloads
            download_result.failed_downloads).2,
        resultStatus := "Succeed", result := some download_result,
        bytes_transferred := acc.bytes_transferred,
        network_requests := acc.network_requests }
    else
      { log := l1 ++ l2 ++ acc.state.log ++ (update_failed acc.state.pm "All downloads failed").2,
        resultStatus := "Failed", result := some download_result,
        bytes_transferred := acc.bytes_transferred,
        network_requests := acc.network_requests }

/-! ## The dispatcher acknowledgements
(`async_handler_fixed.handle_async_download` and
`missav_crawl_async.handle_async_download`) -/

/-- The immediate acknowledgement printed by a dispatcher. -/
inductive AckResponse where
  | error (error : String)
  | success (result : String) (messageForAI : String)
deriving Repr, DecidableEq, Inhabited

/-- The `result` string of the ASMRTools initial response, with the literal
placeholder `\x7b\x7bVCP_ASYNC_RESULT::ASMRTools::<task_id>\x7d\x7d`. -/
def asmr_initial_result (task_id work_id target_path : String) : String :=
  "ASMR作品下载任务已提交 (ID: " ++ task_id ++ ")\n" ++
  "作品ID: " ++ work_id ++ "\n" ++
  "下载范围: " ++ (if target_path = "" then "全部内容" else "指定路径: " ++ target_path) ++ "\n" ++
  "音质: 自动选择最佳音质\n" ++
  "任务正在后台处理中，请耐心等待...\n" ++
  "请在你的回复中包含以下占位符原文：" ++
  ("\x7b\x7bVCP_ASYNC_RESULT::ASMRTools::" ++ task_id ++ "\x7d\x7d")

/-- Model of `async_handler_fixed.handle_async_download` up to the acknowledgement:
a missing `work_id` is rejected before any job is created; otherwise the
freshly generated `task_id` is embedded in the placeholder token. -/
def asmr_handle_async_download (work_id target_path task_id : String) : AckResponse :=
  if work_id = "" then AckResponse.error "Work ID is required for download"
  else AckResponse.success (asmr_initial_result task_id work_id target_path)
    ("ASMR下载任务已提交，任务ID为 " ++ task_id ++
     "。请告知用户耐心等待，下载结果将通过通知推送。")

/-- The `placeholder` field of the MissAVCrawl initial response. -/
def missav_placeholder (task_id : String) : String :=
  "\x7b\x7bVCP_ASYNC_RESULT::MissAVCrawl::" ++ task_id ++ "\x7d\x7d"

/-- Substring containment on the underlying character lists, used to state the
placeholder-token claims. -/
def strContains (s pat : String) : Prop :=
  pat.data <:+: s.data

instance (s pat : String) : Decidable (strContains s pat) :=
  List.decidableInfix pat.data s.data

/-! ## The throttle as the spec words it

"A snapshot is persisted only if (a) at least a configured interval has
elapsed since the last persisted snapshot, OR (b) progress has moved by more
than 1 percentage point since the last persisted value, OR (c) it is the
first `Downloading` snapshot." Written from the claim's words, to be compared
with `update_download_progress`. -/

/-- Spec-side throttle state: time and progress value of the last *persisted*
snapshot, `none` before the first one. -/
structure SpecThrottleState where
  lastPersistTime : Option ℚ
  lastPersistValue : Option ℚ
deriving Repr, DecidableEq, Inhabited

/-- One step of the claim's throttle: persist iff first, or the interval
elapsed since the last persisted snapshot, or the progress moved by more than
one point since the last persisted value; both references update on every
persisted snapshot. -/
def specThrottleStep (interval : ℚ) (st : SpecThrottleState) (t p : ℚ) :
    SpecThrottleState × Bool :=
  let persist : Bool :=
    st.lastPersistTime.isNone ||
    decide (interval ≤ t - st.lastPersistTime.getD 0) ||
    decide (1 < |p - st.lastPersistValue.getD 0|)
  if persist then ({ lastPersistTime := some t, lastPersistValue := some p }, true)
  else (st, false)

/-- Run the claim's throttle over a sequence of `(time, progress)` updates,
returning which updates are persisted. -/
def specThrottleRun (interval : ℚ) : SpecThrottleState → List (ℚ × ℚ) → List Bool
  | _, [] => []
  | st, (t, p) :: rest =>
      let (st, b) := specThrottleStep interval st t p
      b :: specThrottleRun interval st rest

/-- Run the code's `update_download_progress` over the same `(time, progress)`
sequence (with no files and no byte totals), returning which updates wrote a
snapshot. -/
def codeThrottleRun : PMState → List (ℚ × ℚ) → List Bool
  | _, [] => []
  | pm, (t, p) :: rest =>
      let (pm, snaps) := update_download_progress pm p 0 5 "" [] 0 0 t
      (!snaps.isEmpty) :: codeThrottleRun pm rest

/-! ## Concrete scenarios used by counterexamples and witnesses -/

/-- A two-file manifest: a 10-byte file that will be skipped (it already
exists) and a 990-byte file that is streamed; used to exercise the full
`perform_download_sync` pipeline. -/
def tracksTwo : List Track :=
  [Track.file "X" "u" 10, Track.file "Y" "v" 990]

/-- Environments for `tracksTwo`: item 0 already exists on disk (size 10),
item 1 is downloaded in one 990-byte chunk at `t = 8`. -/
def envsTwo : ℕ → FileEnv := fun i =>
  if i = 0 then
    { start_time := 5, existing_size := some 10, status_code := 200,
      content_length := 0, chunks := [], end_time := 5 }
  else
    { start_time := 6, existing_size := none, status_code := 200,
      content_length := 990, chunks := [{ len := 990, time := 8 }], end_time := 9 }

/-- A complete happy-path job over `tracksTwo`. -/
def jobTwo : JobEnv :=
  { interval := 30, configValid := true, loginStatus := 200, workStatus := 200,
    tracksStatus := 200, work_id := "RJ1",
    work_info := { source_id := "RJ1", title := "W" },
    tracks := tracksTwo, envs := envsTwo, t_start := 0, download_path := "dl" }

/-- The `(time, progress)` trace that separates the code's throttle from the
claim's: a first write at `t = 100`, an interval-driven write at `t = 135`
whose progress moved only half a point, then a third update one second later
whose progress is within one point of the last persisted value but more than
one point above the last movement-persisted value. -/
def throttleTrace : List (ℚ × ℚ) :=
  [(100, 10), (135, 21 / 2), (136, 56 / 5)]

/-- The adversarial `filterByPath` input: one item whose composed relative
path carries a leading slash. -/
def slashItem : FileInfo :=
  { title := "x", mediaDownloadUrl := "", path := "", filename := "/x", size := 0 }

/-- A single-file manifest whose track has no `mediaDownloadUrl`. -/
def tracksNoUrl : List Track := [Track.file "a" "" 5]

/-- Environments in which every destination file already exists with size 5. -/
def envsAllExist : ℕ → FileEnv := fun _ =>
  { start_time := 0, existing_size := some 5, status_code := 200,
    content_length := 0, chunks := [], end_time := 0 }

/-- A single-file manifest with a URL, for the idempotence witness. -/
def tracksOneOk : List Track := [Track.file "a" "u" 5]

/-- A manifest whose second item fails with HTTP 404, for the partial-success
witness. -/
def envsSecondFails : ℕ → FileEnv := fun i =>
  if i = 0 then
    { start_time := 0, existing_size := some 5, status_code := 200,
      content_length := 0, chunks := [], end_time := 0 }
  else
    { start_time := 1, existing_size := none, status_code := 404,
      content_length := 0, chunks := [], end_time := 1 }

/-- A happy-path job over `tracksTwo` whose second item fails. -/
def jobPartial : JobEnv :=
  { interval := 30, configValid := true, loginStatus := 200, workStatus := 200,
    tracksStatus := 200, work_id := "RJ1",
    work_info := { source_id := "RJ1", title := "W" },
    tracks := tracksTwo, envs := envsSecondFails, t_start := 0, download_path := "dl" }

/-- The `ProgressManager` state right after two history samples
`(t=0, bytes=0, total=1000)` and `(t=10, bytes=500, total=1000)`, with the
`_last_eta_seconds = 0` left by `update_starting`. -/
def pmTwoSamples : PMState :=
  { PMState.init 30 with
    progress_history :=
      [{ time := 0, progress := 0, completed_files := 0,
         downloaded_bytes := 0, total_bytes := 1000 },
       { time := 10, progress := 50, completed_files := 1,
         downloaded_bytes := 500, total_bytes := 1000 }],
    last_eta_seconds := some 0 }

/-- A file structure with two same-named files in different folders, the first
with declared size 0: `{A: {f: size 0}, B: {f: size 7}}`. -/
def fsZeroFirst : List (String × FSNode) :=
  [("A", FSNode.folder [("f", FSNode.file 0 "")] 1),
   ("B", FSNode.folder [("f", FSNode.file 7 "")] 1)]

/-- A file structure with two same-named files, both of positive declared
size, for the size-lookup witness. -/
def fsAllPos : List (String × FSNode) :=
  [("A", FSNode.folder [("f", FSNode.file 3 "")] 1), ("f", FSNode.file 7 "")]

/-- A callback state whose completed list already contains `"a"`. -/
def cbSeen : CbState :=
  { completed_files := 1, current_file := "", completed_files_list := ["a"],
    downloaded_bytes := 5, pm := PMState.init 30, log := [] }

/-- A `complete` event for the already-recorded file `"a"`. -/
def infoSeen : ProgressInfo :=
  { filename := "a", status := "complete", completed_length := 0,
    total_length := 0, download_speed := 0, progress_percent := 100 }

/-- A nested manifest with messy titles, for the `resolveManifest` witness. -/
def tracksNested : List Track :=
  [Track.folder " .bad<name>. "
     [Track.file "a?.mp3" "u" 1, Track.file "  " "u" 2,
      Track.folder "inner" [Track.file "b.wav" "u" 3]],
   Track.file "top.mp3" "u" 4]

/-- A well-sanitized path segment, as described by the spec's sanitization
rule: non-empty, free of illegal filesystem characters, and not beginning or
ending in a dot or space. -/
def goodSeg (s : String) : Prop :=
  s ≠ "" ∧ (∀ c ∈ s.data, c ∉ illegalChars) ∧
  (∀ c, s.data.head? = some c → c ∉ stripSet) ∧
  (∀ c, s.data.getLast? = some c → c ∉ stripSet)

/-- A well-formed relative path: a non-empty `/`-joined sequence of
well-sanitized segments. -/
def goodRelPath (p : String) : Prop :=
  ∃ segs : List String, segs ≠ [] ∧ (∀ s ∈ segs, goodSeg s) ∧ p = joinPath segs

/-! # Theorems -/

attribute [local semireducible] Rat.add Rat.sub Rat.mul Rat.inv

/-! ## Support lemmas about `pyStrip` -/

theorem dropWhile_of_head_not {α : Type} (p : α → Bool) (l : List α)
    (h : ∀ c, l.head? = some c → p c = false) : l.dropWhile p = l := by
  cases l with
  | nil => rfl
  | cons a l => rw [List.dropWhile_cons, h a rfl]; simp

theorem head_not_of_dropWhile {α : Type} (p : α → Bool) (l : List α) :
    ∀ c, (l.dropWhile p).head? = some c → p c = false := by
  intro c hc
  have h := List.head?_dropWhile_not p l
  rw [hc] at h
  exact h

theorem pyStrip_subset (cs : List Char) (s : List Char) :
    ∀ c ∈ pyStrip cs s, c ∈ s := by
  intro c hc
  unfold pyStrip at hc
  rw [List.mem_reverse] at hc
  have h1 := (List.dropWhile_suffix (l := (s.dropWhile (· ∈ cs)).reverse)
    (p := (· ∈ cs))).sublist.subset hc
  rw [List.mem_reverse] at h1
  exact (List.dropWhile_suffix (p := (· ∈ cs))).sublist.subset h1

theorem pyStrip_getLast (cs : List Char) (s : List Char) :
    ∀ c, (pyStrip cs s).getLast? = some c → c ∉ cs := by
  intro c hc
  unfold pyStrip at hc
  rw [List.getLast?_reverse] at hc
  have := head_not_of_dropWhile (· ∈ cs) (s.dropWhile (· ∈ cs)).reverse c hc
  simpa using this

theorem pyStrip_head (cs : List Char) (s : List Char) :
    ∀ c, (pyStrip cs s).head? = some c → c ∉ cs := by
  intro c hc
  unfold pyStrip at hc
  rw [List.head?_reverse] at hc
  set A := s.dropWhile (· ∈ cs) with hA
  set C := A.reverse.dropWhile (· ∈ cs) with hC
  have hCne : C ≠ [] := by
    intro h
    rw [h] at hc
    simp at hc
  obtain ⟨t, ht⟩ := List.dropWhile_suffix (l := A.reverse) (p := (· ∈ cs))
  have hlast : C.getLast? = A.reverse.getLast? := by
    rw [← ht]
    exact (List.getLast?_append_of_ne_nil t hCne).symm
  rw [hlast, List.getLast?_reverse] at hc
  have := head_not_of_dropWhile (· ∈ cs) s c hc
  simpa using this

theorem pyStrip_idem (cs : List Char) (s : List Char) :
    pyStrip cs (pyStrip cs s) = pyStrip cs s := by
  have h1 : (pyStrip cs s).dropWhile (· ∈ cs) = pyStrip cs s := by
    apply dropWhile_of_head_not
    intro c hc
    simpa using pyStrip_head cs s c hc
  show ((((pyStrip cs s).dropWhile (· ∈ cs)).reverse.dropWhile (· ∈ cs))).reverse = pyStrip cs s
  rw [h1]
  show (((((s.dropWhile (· ∈ cs)).reverse.dropWhile (· ∈ cs))).reverse).reverse.dropWhile
    (· ∈ cs)).reverse = pyStrip cs s
  rw [List.reverse_reverse]
  have h2 : ((s.dropWhile (· ∈ cs)).reverse.dropWhile (· ∈ cs)).dropWhile (· ∈ cs) =
      (s.dropWhile (· ∈ cs)).reverse.dropWhile (· ∈ cs) := by
    apply dropWhile_of_head_not
    intro c hc
    exact head_not_of_dropWhile _ _ c hc
  rw [h2]
  rfl

theorem stripSlashes_idem (s : String) :
    stripSlashes (stripSlashes s) = stripSlashes s := by
  unfold stripSlashes
  exact congrArg String.mk (pyStrip_idem ['/'] s.data)

/-! ## C4: the acknowledgement and its placeholder token -/

set_option maxRecDepth 10000 in
/-- C4, counterexample. For the accepted request `work_id = "w"` with job id
`"t"`, the acknowledgement's `result` string does not contain the claimed
placeholder token `\x7b\x7bASYNC_RESULT::ASMRTools::t\x7d\x7d`: the literal
token the code emits is prefixed `VCP_ASYNC_RESULT`. -/
theorem C4_counterexample :
    asmr_handle_async_download "w" "" "t" =
      AckResponse.success (asmr_initial_result "t" "w" "")
        ("ASMR下载任务已提交，任务ID为 t。请告知用户耐心等待，下载结果将通过通知推送。") ∧
    ¬ strContains (asmr_initial_result "t" "w" "")
        ("\x7b\x7bASYNC_RESULT::ASMRTools::t\x7d\x7d") := by
  constructor
  · decide
  · decide

/-- C4 (amended): for every accepted request (non-empty `work_id`), the
acknowledgement is `status: "success"` with a `result` string containing the
placeholder token `\x7b\x7bVCP_ASYNC_RESULT::ASMRTools::<job_id>\x7d\x7d`
embedding the freshly generated job id (the token's name is
`VCP_ASYNC_RESULT`, not the claimed `ASYNC_RESULT`); the MissAVCrawl
dispatcher's `placeholder` field is the analogous
`\x7b\x7bVCP_ASYNC_RESULT::MissAVCrawl::<job_id>\x7d\x7d` token. -/
theorem C4_ack_token (work_id target_path task_id : String) (h : work_id ≠ "") :
    asmr_handle_async_download work_id target_path task_id =
      AckResponse.success (asmr_initial_result task_id work_id target_path)
        ("ASMR下载任务已提交，任务ID为 " ++ task_id ++
         "。请告知用户耐心等待，下载结果将通过通知推送。") ∧
    strContains (asmr_initial_result task_id work_id target_path)
      ("\x7b\x7bVCP_ASYNC_RESULT::ASMRTools::" ++ task_id ++ "\x7d\x7d") ∧
    strContains (missav_placeholder task_id)
      ("\x7b\x7bVCP_ASYNC_RESULT::MissAVCrawl::" ++ task_id ++ "\x7d\x7d") := by
  refine ⟨?_, ?_, ?_⟩
  · rw [asmr_handle_async_download, if_neg h]
  · show (("\x7b\x7bVCP_ASYNC_RESULT::ASMRTools::" ++ task_id ++ "\x7d\x7d") : String).data <:+:
      (asmr_initial_result task_id work_id target_path).data
    unfold asmr_initial_result
    rw [String.data_append]
    exact (List.suffix_append _ _).isInfix
  · exact List.infix_refl _

/-! ## C5: `filterByPath` -/

/-- C5 (amended): `filterByPath` keeps exactly the items matching the
spec-worded rule applied to the slash-stripped composed relative path (the
code normalises the item path as well as the scope), and an empty scope is
the identity. -/
theorem C5_filter_by_path (items : List FileInfo) (scope : String) :
    filter_files_by_path items scope =
      items.filter (fun fi => spec_path_matches (stripSlashes fi.fullPath) scope) ∧
    filter_files_by_path items "" = items := by
  constructor
  · unfold filter_files_by_path
    apply List.filter_congr
    intro fi _
    simp only [path_matches, spec_path_matches, stripSlashes_idem]
  · unfold filter_files_by_path
    exact List.filter_eq_self.mpr (fun a _ => rfl)

/-! ## C6: `resolveManifest` -/

theorem joinPath_concat (l : List String) (x : String) (h : l ≠ []) :
    joinPath (l ++ [x]) = joinPath l ++ "/" ++ x := by
  induction l with
  | nil => exact absurd rfl h
  | cons a l ih =>
      cases l with
      | nil => simp [joinPath]
      | cons b l' =>
          rw [List.cons_append]
          show joinPath (a :: (b :: l' ++ [x])) = joinPath (a :: b :: l') ++ "/" ++ x
          rw [joinPath, joinPath]
          simp only [List.cons_append, List.isEmpty_cons, if_neg Bool.false_ne_true]
          rw [← List.cons_append, ih (by simp)]
          simp [String.append_assoc]

theorem sanitize_goodSeg (t : String) : goodSeg (sanitize_filename t) := by
  unfold sanitize_filename
  by_cases h : (pyStrip stripSet (t.data.map (fun c => if c ∈ illegalChars then '_' else c))).isEmpty
  · rw [if_pos h]
    exact ⟨by decide, by decide, by decide, by decide⟩
  · rw [if_neg h]
    have hne : pyStrip stripSet (t.data.map (fun c => if c ∈ illegalChars then '_' else c)) ≠ [] := by
      simpa [List.isEmpty_iff] using h
    refine ⟨?_, ?_, ?_, ?_⟩
    · intro hcontr
      exact hne (by simpa using congrArg String.data hcontr)
    · intro c hc
      have h1 := pyStrip_subset _ _ c hc
      rw [List.mem_map] at h1
      obtain ⟨x, _, hx⟩ := h1
      by_cases hxi : x ∈ illegalChars
      · rw [if_pos hxi] at hx
        subst hx
        decide
      · rw [if_neg hxi] at hx
        subst hx
        exact hxi
    · exact fun c hc => pyStrip_head _ _ c hc
    · exact fun c hc => pyStrip_getLast _ _ c hc

theorem goodRelPath_single {s : String} (hs : goodSeg s) : goodRelPath s :=
  ⟨[s], by simp, by simpa using hs, by simp [joinPath]⟩

theorem goodRelPath_extend {b s : String} (hb : goodRelPath b) (hs : goodSeg s) :
    goodRelPath (b ++ "/" ++ s) := by
  obtain ⟨segs, hne, hgood, hj⟩ := hb
  refine ⟨segs ++ [s], by simp, ?_, ?_⟩
  · intro x hx
    rcases List.mem_append.mp hx with h | h
    · exact hgood x h
    · rw [List.mem_singleton] at h
      subst h
      exact hs
  · rw [joinPath_concat segs s hne, hj]

theorem extract_files_length : ∀ (ts : List Track) (base : String),
    (extract_files_from_tracks ts base).length = leafCount ts
  | [], _ => rfl
  | Track.folder title children :: rest, base => by
      simp only [extract_files_from_tracks, extract_from_track, leafCount, leafCountTrack,
        List.length_append]
      rw [extract_files_length children _, extract_files_length rest base]
  | Track.file title url size :: rest, base => by
      simp only [extract_files_from_tracks, extract_from_track, leafCount, leafCountTrack,
        List.length_append, List.length_singleton]
      rw [extract_files_length rest base]

theorem extract_files_good : ∀ (ts : List Track) (base : String),
    (base = "" ∨ goodRelPath base) →
    ∀ fi ∈ extract_files_from_tracks ts base, goodRelPath fi.fullPath
  | [], _, _ => by simp [extract_files_from_tracks]
  | track :: rest, base, hb => by
      intro fi hfi
      simp only [extract_files_from_tracks, List.mem_append] at hfi
      rcases hfi with h | h
      · cases track with
        | folder title children =>
            simp only [extract_from_track] at h
            have hgp : goodRelPath
                (if base = "" then sanitize_filename title
                 else base ++ "/" ++ sanitize_filename title) := by
              by_cases hbase : base = ""
              · rw [if_pos hbase]
                exact goodRelPath_single (sanitize_goodSeg title)
              · rw [if_neg hbase]
                rcases hb with h' | h'
                · exact absurd h' hbase
                · exact goodRelPath_extend h' (sanitize_goodSeg title)
            exact extract_files_good children _ (Or.inr hgp) fi h
        | file title url size =>
            simp only [extract_from_track, List.mem_singleton] at h
            subst h
            unfold FileInfo.fullPath
            by_cases hbase : base = ""
            · simp only [hbase]
              simp only [ne_eq, not_true_eq_false, if_neg, ite_false, not_false_eq_true]
              exact goodRelPath_single (sanitize_goodSeg title)
            · simp only [ne_eq, hbase, not_false_eq_true, if_pos, ite_true]
              rcases hb with h' | h'
              · exact absurd h' hbase
              · exact goodRelPath_extend h' (sanitize_goodSeg title)
      · exact extract_files_good rest base hb fi h

/-- C6: for every manifest tree, `resolveManifest`
(`_extract_files_from_tracks` started at the empty base path) returns exactly
one `WorkItem` per leaf file at any nesting depth, and each item's composed
relative path is a non-empty `/`-joined sequence of sanitized segments —
non-empty, free of illegal filesystem characters, with no leading or trailing
dots or spaces (empty names having been replaced by the fallback name). -/
theorem C6_resolve_manifest (tracks : List Track) :
    (extract_files_from_tracks tracks "").length = leafCount tracks ∧
    ∀ fi ∈ extract_files_from_tracks tracks "", goodRelPath fi.fullPath :=
  ⟨extract_files_length tracks "", extract_files_good tracks "" (Or.inl rfl)⟩

/-- C6, witness: the nested messy-title manifest has 4 leaves and 4 extracted
items, and the item extracted for `"a?.mp3"` inside `" .bad<name>. "` has a
well-formed sanitized relative path. -/
theorem C6_resolve_manifest_witness :
    (extract_files_from_tracks tracksNested "").length = leafCount tracksNested ∧
    goodRelPath (FileInfo.fullPath
      { title := "a?.mp3", mediaDownloadUrl := "u", path := "bad_name_",
        filename := "a_.mp3", size := 1 }) :=
  ⟨(C6_resolve_manifest tracksNested).1,
   (C6_resolve_manifest tracksNested).2 _ (by decide)⟩

/-! ## C7: idempotent re-runs -/

theorem run_files_all_skipped (envs : ℕ → FileEnv) :
    ∀ (files : List FileInfo) (i : ℕ) (acc0 : List ProgressInfo),
    (∀ j fi, files[j]? = some fi → fi.mediaDownloadUrl ≠ "" ∧
       ∃ n, (envs (i + j)).existing_size = some n ∧ 0 < n) →
    (run_files (fun acc info _ => acc ++ [info]) envs files i acc0).completed_downloads.length
        = files.length ∧
    (run_files (fun acc info _ => acc ++ [info]) envs files i acc0).failed_downloads = [] ∧
    (run_files (fun acc info _ => acc ++ [info]) envs files i acc0).bytes_transferred = 0 ∧
    (run_files (fun acc info _ => acc ++ [info]) envs files i acc0).network_requests = 0 ∧
    ∀ e ∈ (run_files (fun acc info _ => acc ++ [info]) envs files i acc0).state,
      e ∈ acc0 ∨ e.status = "skipped" := by
  intro files
  induction files with
  | nil =>
      intro i acc0 _
      refine ⟨rfl, rfl, rfl, rfl, ?_⟩
      intro e he
      exact Or.inl he
  | cons fi rest ih =>
      intro i acc0 h
      obtain ⟨hurl, n, hex, hn⟩ := h 0 fi (by simp)
      rw [Nat.add_zero] at hex
      have hd : download_single_file fi (envs i) =
          { success := true,
            events := [({ filename := fi.filename, status := "skipped",
                          completed_length := n, total_length := n,
                          download_speed := 0, progress_percent := 100 },
                        (envs i).start_time)],
            bytes_transferred := 0, network_requests := 0 } := by
        unfold download_single_file
        rw [if_neg hurl, hex]
        simp only [if_pos hn]
      have hrest := ih (i + 1)
        (acc0 ++ [{ filename := fi.filename, status := "skipped",
                    completed_length := n, total_length := n,
                    download_speed := 0, progress_percent := 100 }])
        (fun j fi' hj => by
          have := h (j + 1) fi' (by simpa using hj)
          rwa [show i + (j + 1) = i + 1 + j by omega] at this)
      obtain ⟨ihl, ihf, ihb, ihn, ihs⟩ := hrest
      refine ⟨?_, ?_, ?_, ?_, ?_⟩ <;>
        simp only [run_files, hd, List.foldl_cons, List.foldl_nil, if_true, List.length_cons]
      · rw [ihl]
      · exact ihf
      · rw [ihb]
      · rw [ihn]
      · intro e he
        rcases ihs e he with h' | h'
        · rcases List.mem_append.mp h' with h'' | h''
          · exact Or.inl h''
          · rw [List.mem_singleton] at h''
            subst h''
            exact Or.inr rfl
        · exact Or.inr h'

theorem C4_ack_token_witness :
    asmr_handle_async_download "w" "" "t" =
      AckResponse.success (asmr_initial_result "t" "w" "")
        ("ASMR下载任务已提交，任务ID为 " ++ "t" ++
         "。请告知用户耐心等待，下载结果将通过通知推送。") ∧
    strContains (asmr_initial_result "t" "w" "")
      ("\x7b\x7bVCP_ASYNC_RESULT::ASMRTools::" ++ "t" ++ "\x7d\x7d") ∧
    strContains (missav_placeholder "t")
      ("\x7b\x7bVCP_ASYNC_RESULT::MissAVCrawl::" ++ "t" ++ "\x7d\x7d") :=
  C4_ack_token "w" "" "t" (by decide)

/-- C7 (amended): re-running a job against a destination in which every
item's file already exists with non-zero size — and every item has a
non-empty `mediaDownloadUrl`, since the URL check precedes the existence
short-circuit — yields the `skipped` outcome for every item (zero network
requests, zero bytes transferred) and an aggregate with
`succeeded_count = total` and no failures. -/
theorem C7_idempotent_skip (download_path : String) (tracks : List Track)
    (work_info : WorkInfo) (target_path : String) (envs : ℕ → FileEnv)
    (h : ∀ j fi,
      (if target_path ≠ "" then
          filter_files_by_path (extract_files_from_tracks tracks "") target_path
        else extract_files_from_tracks tracks "")[j]? = some fi →
      fi.mediaDownloadUrl ≠ "" ∧ ∃ n, (envs j).existing_size = some n ∧ 0 < n) :
    (download_tracks download_path tracks work_info
        (fun (acc : List ProgressInfo) info _ => acc ++ [info]) target_path envs
        []).1.success_count =
      (download_tracks download_path tracks work_info
        (fun (acc : List ProgressInfo) info _ => acc ++ [info]) target_path envs
        []).1.total_tracks ∧
    (download_tracks download_path tracks work_info
        (fun (acc : List ProgressInfo) info _ => acc ++ [info]) target_path envs
        []).1.failed_count = 0 ∧
    (download_tracks download_path tracks work_info
        (fun (acc : List ProgressInfo) info _ => acc ++ [info]) target_path envs
        []).2.bytes_transferred = 0 ∧
    (download_tracks download_path tracks work_info
        (fun (acc : List ProgressInfo) info _ => acc ++ [info]) target_path envs
        []).2.network_requests = 0 ∧
    ∀ e ∈ (download_tracks download_path tracks work_info
        (fun (acc : List ProgressInfo) info _ => acc ++ [info]) target_path envs
        []).2.state, e.status = "skipped" := by
  have key := run_files_all_skipped envs
    (if target_path ≠ "" then
        filter_files_by_path (extract_files_from_tracks tracks "") target_path
      else extract_files_from_tracks tracks "") 0 []
    (fun j fi hj => by simpa using h j fi hj)
  obtain ⟨kl, kf, kb, kn, ks⟩ := key
  unfold download_tracks
  refine ⟨?_, ?_, ?_, ?_, ?_⟩
  · simp only [kl, kf]
  · simp only [kf, List.length_nil]
  · exact kb
  · exact kn
  · intro e he
    rcases ks e he with h' | h'
    · exact absurd h' (List.not_mem_nil e)
    · exact h'

/-- C7, witness: a one-file manifest with a URL against a directory where the
file exists with size 5. -/
theorem C7_idempotent_skip_witness :
    (download_tracks "dl" tracksOneOk { source_id := "id", title := "t" }
        (fun (acc : List ProgressInfo) info _ => acc ++ [info]) "" envsAllExist
        []).1.success_count =
      (download_tracks "dl" tracksOneOk { source_id := "id", title := "t" }
        (fun (acc : List ProgressInfo) info _ => acc ++ [info]) "" envsAllExist
        []).1.total_tracks ∧
    (download_tracks "dl" tracksOneOk { source_id := "id", title := "t" }
        (fun (acc : List ProgressInfo) info _ => acc ++ [info]) "" envsAllExist
        []).1.failed_count = 0 ∧
    (download_tracks "dl" tracksOneOk { source_id := "id", title := "t" }
        (fun (acc : List ProgressInfo) info _ => acc ++ [info]) "" envsAllExist
        []).2.bytes_transferred = 0 ∧
    (download_tracks "dl" tracksOneOk { source_id := "id", title := "t" }
        (fun (acc : List ProgressInfo) info _ => acc ++ [info]) "" envsAllExist
        []).2.network_requests = 0 ∧
    ∀ e ∈ (download_tracks "dl" tracksOneOk { source_id := "id", title := "t" }
        (fun (acc : List ProgressInfo) info _ => acc ++ [info]) "" envsAllExist
        []).2.state, e.status = "skipped" :=
  C7_idempotent_skip "dl" tracksOneOk { source_id := "id", title := "t" } "" envsAllExist
    (by
      intro j fi hj
      cases j with
      | zero =>
          have hj' : ([{ title := "a", mediaDownloadUrl := "u", path := "",
                         filename := "a", size := 5 }] : List FileInfo)[0]? = some fi := hj
          simp only [List.getElem?_cons_zero, Option.some.injEq] at hj'
          subst hj'
          exact ⟨by decide, 5, rfl, by decide⟩
      | succ j =>
          have hj' : ([{ title := "a", mediaDownloadUrl := "u", path := "",
                         filename := "a", size := 5 }] : List FileInfo)[j + 1]? = some fi := hj
          simp at hj')

/-! ## C10: the size lookup and the completed-list guard -/

theorem search_eq_head_of_pos : ∀ (st : List (String × FSNode)) (f : String),
    (∀ m ∈ dfsMatches f st, 0 < m) →
    search_structure f st = (dfsMatches f st).headD 0
  | [], _, _ => rfl
  | (key, FSNode.file size url) :: rest, f, h => by
      simp only [search_structure, dfsMatches]
      by_cases hk : key = f
      · rw [if_pos hk, if_pos hk]
        simp
      · rw [if_neg hk, if_neg hk, List.nil_append]
        exact search_eq_head_of_pos rest f (fun m hm => h m (by
          simp only [dfsMatches, if_neg hk, List.nil_append]
          exact hm))
  | (key, FSNode.folder children fc) :: rest, f, h => by
      simp only [search_structure, dfsMatches, search_subtree, dfsMatchesNode]
      have hmem : ∀ m ∈ dfsMatches f children,
          m ∈ dfsMatches f ((key, FSNode.folder children fc) :: rest) := by
        intro m hm
        simp only [dfsMatches, dfsMatchesNode]
        exact List.mem_append_left _ hm
      have hchild := search_eq_head_of_pos children f (fun m hm => h m (hmem m hm))
      cases hm : dfsMatches f children with
      | nil =>
          rw [hchild, hm]
          simp only [List.headD_nil, List.nil_append]
          rw [if_neg (by omega)]
          exact search_eq_head_of_pos rest f (fun m hmr => h m (by
            simp only [dfsMatches, dfsMatchesNode, hm, List.nil_append]
            exact hmr))
      | cons m ms =>
          have hmpos : 0 < m := h m (by
            simp only [dfsMatches, dfsMatchesNode, hm]
            exact List.mem_append_left _ (List.mem_cons_self m ms))
          rw [hchild, hm]
          simp only [List.headD_cons]
          rw [if_pos hmpos]
          simp

theorem search_mem_or_zero : ∀ (st : List (String × FSNode)) (f : String),
    search_structure f st = 0 ∨ search_structure f st ∈ dfsMatches f st
  | [], _ => Or.inl rfl
  | (key, FSNode.file size url) :: rest, f => by
      simp only [search_structure, dfsMatches]
      by_cases hk : key = f
      · rw [if_pos hk, if_pos hk]
        exact Or.inr (by simp)
      · rw [if_neg hk, if_neg hk, List.nil_append]
        exact search_mem_or_zero rest f
  | (key, FSNode.folder children fc) :: rest, f => by
      simp only [search_structure, dfsMatches, search_subtree, dfsMatchesNode]
      by_cases hs : search_structure f children > 0
      · rw [if_pos hs]
        rcases search_mem_or_zero children f with h | h
        · omega
        · exact Or.inr (List.mem_append_left _ h)
      · rw [if_neg hs]
        rcases search_mem_or_zero rest f with h | h
        · exact Or.inl h
        · exact Or.inr (List.mem_append_right _ h)

/-- C10 (amended): the byte lookup is keyed by bare filename via a
depth-first search, but a zero-size match inside a folder is skipped in
favour of later matches: when every declared size in the matches is positive,
the lookup returns the *first* match in depth-first order, and in general it
returns either 0 or the declared size of one of the same-named files — so two
distinct files sharing a sanitized filename are attributed the same looked-up
size. A `complete`/`skipped` event for a filename already present in the
completed list neither re-appends it nor adds its size again. -/
theorem C10_size_lookup (st : List (String × FSNode)) (f : String)
    (cb : CbState) (info : ProgressInfo) (fs : String → ℕ) (tb tf : ℕ) (now : ℚ) :
    ((∀ m ∈ dfsMatches f st, 0 < m) →
      get_file_size_from_structure st f = (dfsMatches f st).headD 0) ∧
    (get_file_size_from_structure st f = 0 ∨
      get_file_size_from_structure st f ∈ dfsMatches f st) ∧
    ((info.status = "complete" ∨ info.status = "skipped") →
      info.filename ∈ cb.completed_files_list →
      (progress_callback fs tb tf cb info now).completed_files_list =
        cb.completed_files_list ∧
      (progress_callback fs tb tf cb info now).downloaded_bytes =
        cb.downloaded_bytes) := by
  refine ⟨search_eq_head_of_pos st f, search_mem_or_zero st f, ?_⟩
  intro hst hmem
  unfold progress_callback progress_callback_counters
  rw [if_pos hst]
  by_cases hf : info.filename ≠ "" <;> simp [hf, hmem]

/-- C10, witness: both same-named files in `fsAllPos` are attributed the
first match's size 3, and a repeated `complete` event for `"a"` leaves the
completed list and byte count unchanged. -/
theorem C10_size_lookup_witness :
    get_file_size_from_structure fsAllPos "f" = (dfsMatches "f" fsAllPos).headD 0 ∧
    (get_file_size_from_structure fsAllPos "f" = 0 ∨
      get_file_size_from_structure fsAllPos "f" ∈ dfsMatches "f" fsAllPos) ∧
    ((progress_callback (fun _ => 0) 0 1 cbSeen infoSeen 0).completed_files_list =
        cbSeen.completed_files_list ∧
      (progress_callback (fun _ => 0) 0 1 cbSeen infoSeen 0).downloaded_bytes =
        cbSeen.downloaded_bytes) :=
  ⟨(C10_size_lookup fsAllPos "f" cbSeen infoSeen (fun _ => 0) 0 1 0).1 (by decide),
   (C10_size_lookup fsAllPos "f" cbSeen infoSeen (fun _ => 0) 0 1 0).2.1,
   (C10_size_lookup fsAllPos "f" cbSeen infoSeen (fun _ => 0) 0 1 0).2.2
     (by decide) (by decide)⟩

/-! ## C3: the Downloading throttle -/

theorem calculate_eta_state (pm : PMState) (p t : ℚ) :
    (calculate_eta pm p t).1.progress_history = pm.progress_history ∧
    (calculate_eta pm p t).1.update_interval = pm.update_interval ∧
    (calculate_eta pm p t).1.last_update_time = pm.last_update_time ∧
    (calculate_eta pm p t).1.last_progress = pm.last_progress ∧
    (calculate_eta pm p t).1.completed_files_list = pm.completed_files_list := by
  unfold calculate_eta
  rcases h : calculate_eta_assign pm p with ⟨o, s⟩
  cases o <;> simp

/-- C3 (amended): a `Downloading` update writes a snapshot iff the configured
interval has elapsed since the last *written* snapshot
(`last_update_time`), or the progress has moved by more than one point since
the `_last_progress` reference — which is updated only by this
movement-or-first branch, not by interval-driven writes — or no
`_last_progress` reference exists yet (the first `Downloading` update); and
regardless of whether the snapshot is written, the new `(time, progress,
bytes)` sample is appended to the in-memory ETA history. -/
theorem C3_throttle_characterisation (pm : PMState) (p : ℚ) (cf tf : ℕ)
    (cur : String) (cfl : List String) (db tb : ℕ) (t : ℚ) :
    ((update_download_progress pm p cf tf cur cfl db tb t).2 ≠ [] ↔
      (pm.update_interval ≤ t - pm.last_update_time ∨
        (1 < |p - pm.last_progress.getD 0| ∨ pm.last_progress = none))) ∧
    (update_download_progress pm p cf tf cur cfl db tb t).1.progress_history.getLast? =
      some { time := t, progress := p, completed_files := cf,
             downloaded_bytes := db, total_bytes := tb } := by
  have h1 : (if cfl ≠ [] then { pm with completed_files_list := cfl } else pm).update_interval
      = pm.update_interval := by split <;> rfl
  have h2 : (if cfl ≠ [] then { pm with completed_files_list := cfl } else pm).last_update_time
      = pm.last_update_time := by split <;> rfl
  have h3 : (if cfl ≠ [] then { pm with completed_files_list := cfl } else pm).last_progress
      = pm.last_progress := by split <;> rfl
  have h4 : (if cfl ≠ [] then { pm with completed_files_list := cfl } else pm).progress_history
      = pm.progress_history := by split <;> rfl
  unfold update_download_progress
  simp only [h1, h2, h3, h4]
  constructor
  · by_cases hs : pm.update_interval ≤ t - pm.last_update_time ∨
        (1 < |p - pm.last_progress.getD 0| ∨ pm.last_progress = none)
    · rw [if_pos hs]
      simpa using hs
    · rw [if_neg hs]
      simpa using hs
  · split_ifs with hlen hsig hshould hshould hsig hshould hshould <;>
      simp only [(calculate_eta_state _ _ _).1] <;>
      first
        | exact List.getLast?_concat _
        | · rw [List.drop_append_of_le_length (by
              simp only [List.length_append, List.length_singleton] at hlen ⊢
              omega)]
            exact List.getLast?_concat _

/-! ## The shape of a job's write log (C1, C2, C9) -/

theorem update_download_progress_only_downloading (pm : PMState) (p : ℚ)
    (cf tf : ℕ) (cur : String) (cfl : List String) (db tb : ℕ) (t : ℚ) :
    ∀ snap ∈ (update_download_progress pm p cf tf cur cfl db tb t).2,
      snap.status = "Downloading" := by
  intro snap hsnap
  unfold update_download_progress at hsnap
  rw [apply_ite Prod.snd] at hsnap
  simp only [List.mem_ite_nil_right, List.mem_singleton] at hsnap
  rw [hsnap.2]

theorem progress_callback_counters_log (fs : String → ℕ) (st : CbState)
    (info : ProgressInfo) :
    (progress_callback_counters fs st info).log = st.log ∧
    (progress_callback_counters fs st info).pm = st.pm := by
  unfold progress_callback_counters
  simp only []
  split_ifs <;> exact ⟨rfl, rfl⟩

theorem progress_callback_log (fs : String → ℕ) (tb tf : ℕ) (st : CbState)
    (info : ProgressInfo) (now : ℚ) :
    ∀ snap ∈ (progress_callback fs tb tf st info now).log,
      snap ∈ st.log ∨ snap.status = "Downloading" := by
  intro snap hsnap
  unfold progress_callback at hsnap
  simp only [] at hsnap
  rw [(progress_callback_counters_log fs st info).1] at hsnap
  rcases List.mem_append.mp hsnap with h | h
  · exact Or.inl h
  · exact Or.inr (update_download_progress_only_downloading _ _ _ _ _ _ _ _ _ _ h)

theorem foldl_progress_callback_log (fs : String → ℕ) (tb tf : ℕ) :
    ∀ (events : List (ProgressInfo × ℚ)) (st : CbState),
    ∀ snap ∈ (events.foldl (fun s e => progress_callback fs tb tf s e.1 e.2) st).log,
      snap ∈ st.log ∨ snap.status = "Downloading" := by
  intro events
  induction events with
  | nil => exact fun st snap h => Or.inl h
  | cons e rest ih =>
      intro st snap h
      rw [List.foldl_cons] at h
      rcases ih _ snap h with h' | h'
      · exact progress_callback_log fs tb tf st e.1 e.2 snap h'
      · exact Or.inr h'

theorem run_files_log (fs : String → ℕ) (tb tf : ℕ) (envs : ℕ → FileEnv) :
    ∀ (files : List FileInfo) (i : ℕ) (st : CbState),
    ∀ snap ∈ (run_files (progress_callback fs tb tf) envs files i st).state.log,
      snap ∈ st.log ∨ snap.status = "Downloading" := by
  intro files
  induction files with
  | nil => exact fun i st snap h => Or.inl h
  | cons fi rest ih =>
      intro i st snap h
      simp only [run_files] at h
      rcases ih (i + 1) _ snap h with h' | h'
      · exact foldl_progress_callback_log fs tb tf _ st snap h'
      · exact Or.inr h'

theorem run_files_counts {σ : Type} (cb : σ → ProgressInfo → ℚ → σ)
    (envs : ℕ → FileEnv) :
    ∀ (files : List FileInfo) (i : ℕ) (s : σ),
      (run_files cb envs files i s).completed_downloads.length +
        (run_files cb envs files i s).failed_downloads.length = files.length := by
  intro files
  induction files with
  | nil => intro i s; rfl
  | cons fi rest ih =>
      intro i s
      simp only [run_files]
      by_cases h : (download_single_file fi (envs i)).success = true <;>
        simp only [h, if_true, if_false, Bool.false_eq_true, List.length_cons] <;>
        · rw [← ih (i + 1) ((download_single_file fi (envs i)).events.foldl
            (fun st e => cb st e.1 e.2) s)]
          omega

/-- C1 (amended): every job run writes exactly one terminal snapshot — its
status is the literal `"Succeed"` (not the claimed `"Succeeded"`) or
`"Failed"` — it is written unconditionally through `update_progress`
(bypassing the `Downloading` throttle), it is the last write of the log, and
every earlier write carries a non-terminal status
(`Starting`/`Preparing`/`Downloading`). -/
theorem C1_terminal_write (env : JobEnv) (target_path : String) :
    ((perform_download_sync env target_path).log.getLast?.map Snapshot.status =
        some "Succeed" ∨
      (perform_download_sync env target_path).log.getLast?.map Snapshot.status =
        some "Failed") ∧
    ∀ x ∈ (perform_download_sync env target_path).log.dropLast,
      x.status ≠ "Succeed" ∧ x.status ≠ "Failed" := by
  unfold perform_download_sync
  simp only []
  split_ifs <;>
    refine ⟨?_, ?_⟩ <;>
    first
      | (simp only [update_starting, update_preparing, update_success, update_failed,
           update_progress, download_tracks]
         rw [List.getLast?_concat]
         first | exact Or.inl rfl | exact Or.inr rfl)
      | (intro x hx
         simp [update_starting, update_failed, update_progress] at hx
         subst hx
         exact ⟨by simp, by simp⟩)
      | (intro x hx
         simp only [update_starting, update_preparing, update_success, update_failed,
           update_progress, download_tracks] at hx
         rw [List.dropLast_concat] at hx
         rcases List.mem_append.mp hx with hx' | hx'
         · rcases List.mem_append.mp hx' with hx'' | hx''
           · simp at hx''
             subst hx''
             exact ⟨by simp, by simp⟩
           · simp at hx''
             subst hx''
             exact ⟨by simp, by simp⟩
         · rcases run_files_log _ _ _ env.envs _ 0 _ x hx' with h' | h'
           · exact absurd h' (List.not_mem_nil x)
           · rw [h']
             exact ⟨by simp, by simp⟩)

/-- C2 (amended): the phase-entry writes carry fixed progress values —
`Starting` 0.0, `Preparing` 5.0 and, on success, the terminal 100.0 — and
these are non-decreasing in that order; the intermediate `Downloading`
snapshots' progress values are, however, not in general non-decreasing (see
the counterexample: the first `Downloading` write can fall below `Preparing`'s
5.0, and the byte double-counting after an item completes can produce a
regression). -/
theorem C2_phase_progress (env : JobEnv) (target_path : String)
    (hc : env.configValid = true) (hl : env.loginStatus = 200)
    (hw : env.workStatus = 200) (ht : env.tracksStatus = 200) :
    ((perform_download_sync env target_path).log.head?.map Snapshot.progress =
      some (some 0)) ∧
    (((perform_download_sync env target_path).log.drop 1).head?.map Snapshot.progress =
      some (some 5)) ∧
    (∀ r, (perform_download_sync env target_path).result = some r →
      0 < r.success_count →
      (perform_download_sync env target_path).log.getLast?.map Snapshot.progress =
        some (some 100)) := by
  unfold perform_download_sync
  simp only []
  rw [if_neg (by simp [hc]), if_neg (by simp [hl]), if_neg (by simp [hw]),
    if_neg (by simp [ht])]
  rcases eq_or_ne target_path "" with htp | htp <;>
    [simp only [if_neg (show ¬(target_path ≠ "") from fun hcon => hcon htp)];
     simp only [if_pos htp]] <;>
    split_ifs with hs <;>
    first
      | (refine ⟨?_, ?_, ?_⟩
         · simp [update_starting, update_preparing, update_success, update_progress]
         · simp [update_starting, update_preparing, update_success, update_progress]
         · intro r hr hsucc
           simp [update_success, update_progress, List.getLast?_concat])
      | (refine ⟨?_, ?_, ?_⟩
         · simp [update_starting, update_preparing, update_failed, update_progress]
         · simp [update_starting, update_preparing, update_failed, update_progress]
         · intro r hr hsucc
           simp only [Option.some.injEq] at hr
           subst hr
           exact absurd hsucc hs)

/-- C2, witness: the amended theorem on the concrete `jobTwo` run. -/
theorem C2_phase_progress_witness :
    ((perform_download_sync jobTwo "").log.head?.map Snapshot.progress =
      some (some 0)) ∧
    (((perform_download_sync jobTwo "").log.drop 1).head?.map Snapshot.progress =
      some (some 5)) ∧
    ((perform_download_sync jobTwo "").log.getLast?.map Snapshot.progress =
      some (some 100)) :=
  ⟨(C2_phase_progress jobTwo "" rfl rfl rfl rfl).1,
   (C2_phase_progress jobTwo "" rfl rfl rfl rfl).2.1,
   (C2_phase_progress jobTwo "" rfl rfl rfl rfl).2.2
     ((perform_download_sync jobTwo "").result.getD default)
     (by decide) (by decide)⟩

/-- C9: on every job that reaches the download phase, all items are settled
(no abort on a single-item failure: succeeded plus failed counts equal the
total, and the failure list has exactly one entry per failed item); the
terminal snapshot is the success write (status `"Succeed"`, carrying the
failed-items list) whenever at least one item completed, even if others
failed; it is the `"Failed"` write exactly when zero items completed. -/
theorem C9_partial_success (env : JobEnv) (target_path : String)
    (hc : env.configValid = true) (hl : env.loginStatus = 200)
    (hw : env.workStatus = 200) (ht : env.tracksStatus = 200) :
    ∃ r, (perform_download_sync env target_path).result = some r ∧
      r.success_count + r.failed_count = r.total_tracks ∧
      r.failed_downloads.length = r.failed_count ∧
      (0 < r.success_count →
        (perform_download_sync env target_path).log.getLast?.map Snapshot.status =
            some "Succeed" ∧
        (perform_download_sync env target_path).log.getLast?.bind
            Snapshot.failedFilesList = some r.failed_downloads) ∧
      (r.success_count = 0 →
        (perform_download_sync env target_path).log.getLast?.map Snapshot.status =
          some "Failed") := by
  unfold perform_download_sync
  simp only []
  rw [if_neg (by simp [hc]), if_neg (by simp [hl]), if_neg (by simp [hw]),
    if_neg (by simp [ht])]
  rcases eq_or_ne target_path "" with htp | htp <;>
    [simp only [if_neg (show ¬(target_path ≠ "") from fun hcon => hcon htp)];
     simp only [if_pos htp]] <;>
    split_ifs with hs <;>
    first
      | (refine ⟨_, rfl, ?_, rfl, ?_, ?_⟩
         · simp only [download_tracks]
           exact run_files_counts _ env.envs _ 0 _
         · intro _
           constructor
           · simp [update_success, update_progress, List.getLast?_concat]
           · simp [update_success, update_progress, List.getLast?_concat, download_tracks]
         · intro h0
           simp only [download_tracks] at hs h0
           omega)
      | (refine ⟨_, rfl, ?_, rfl, ?_, ?_⟩
         · simp only [download_tracks]
           exact run_files_counts _ env.envs _ 0 _
         · intro hsucc
           simp only [download_tracks] at hs hsucc
           omega
         · intro _
           simp [update_failed, update_progress, List.getLast?_concat])

/-- C9, witness: the `jobPartial` run (first item skipped, second fails with
HTTP 404) settles both items, reports `success_count = 1`, `failed_count = 1`,
and ends with the `"Succeed"` terminal write carrying the non-empty failed
list. -/
theorem C9_partial_success_witness :
    ∃ r, (perform_download_sync jobPartial "").result = some r ∧
      r.success_count + r.failed_count = r.total_tracks ∧
      r.failed_downloads.length = r.failed_count ∧
      (0 < r.success_count →
        (perform_download_sync jobPartial "").log.getLast?.map Snapshot.status =
            some "Succeed" ∧
        (perform_download_sync jobPartial "").log.getLast?.bind
            Snapshot.failedFilesList = some r.failed_downloads) ∧
      (r.success_count = 0 →
        (perform_download_sync jobPartial "").log.getLast?.map Snapshot.status =
          some "Failed") :=
  C9_partial_success jobPartial "" rfl rfl rfl rfl

/-- C1, counterexample. On a job that runs to completion (the `jobTwo`
scenario) the status sequence of the persisted snapshots ends in the literal
string `"Succeed"`, and no snapshot with status `"Succeeded"` — the status the
claim requires of the terminal write — is ever persisted: the claim's
assertion that the terminal snapshot's status field is one of `"Succeeded"`
or `"Failed"` is false on the success path. -/
theorem C1_counterexample :
    (perform_download_sync jobTwo "").log.map Snapshot.status =
      ["Starting", "Preparing", "Downloading", "Downloading", "Downloading", "Succeed"] ∧
    "Succeeded" ∉ ["Starting", "Preparing", "Downloading", "Downloading", "Downloading", "Succeed"] := by
  constructor
  · decide
  · decide

/-- C2, counterexample. On the `jobTwo` scenario the progress values carried
by the persisted snapshots are `0, 5, 1, 100, 199, 100`: the first
`Downloading` write (1.0, the skipped 10-byte file) falls below `Preparing`'s
5.0, and the write after the second file's completion double-counts its bytes
(199.0) before the terminal 100.0 — the sequence is not non-decreasing. -/
theorem C2_counterexample :
    (perform_download_sync jobTwo "").log.filterMap Snapshot.progress =
      [0, 5, 1, 100, 199, 100] ∧
    ¬ List.Chain' (· ≤ ·) ([0, 5, 1, 100, 199, 100] : List ℚ) := by
  constructor
  · decide
  · intro h
    rw [List.chain'_cons, List.chain'_cons] at h
    have h51 : (5 : ℚ) ≤ 1 := h.2.1
    norm_num at h51

/-- C3, counterexample. On `throttleTrace` the code persists all three
updates, while the claim's throttle — interval or more-than-one-point movement
measured from the *last persisted* snapshot — rejects the third: one second
after an interval-driven persist at progress 10.5, an update at progress 11.2
has moved only 0.7 points since the last persisted value, yet the code
persists it because its `_last_progress` reference (10) only updates on
movement-driven persists. -/
theorem C3_counterexample :
    codeThrottleRun (PMState.init 30) throttleTrace = [true, true, true] ∧
    specThrottleRun 30 { lastPersistTime := none, lastPersistValue := none }
      throttleTrace = [true, true, false] := by
  constructor
  · decide
  · decide

/-- C5, counterexample. For the item whose composed relative path is `"/x"`
and the scope `"x"`, the code keeps the item (it strips the item path's
surrounding slashes before matching) while the matching rule as the claim
words it — which normalises only the scope — matches nothing: `filterByPath`
does not keep exactly the claim-matching items on every item list. -/
theorem C5_counterexample :
    filter_files_by_path [slashItem] "x" = [slashItem] ∧
    ([slashItem].filter (fun fi => spec_path_matches fi.fullPath "x")) = [] := by
  constructor
  · decide
  · decide

/-- C7, counterexample. A manifest whose single item has no
`mediaDownloadUrl`, re-run against a directory where that item's file exists
with size 5: `download_single_file` checks the URL before the existence
short-circuit, so the item is `failed`, not `skipped`, and the aggregate has
`success_count = 0 ≠ 1 = total` — the claim fails without a non-empty-URL
assumption. -/
theorem C7_counterexample :
    (download_tracks "dl" tracksNoUrl { source_id := "id", title := "t" }
        (fun (acc : List ProgressInfo) info _ => acc ++ [info]) "" envsAllExist
        []).1.success_count = 0 ∧
    (download_tracks "dl" tracksNoUrl { source_id := "id", title := "t" }
        (fun (acc : List ProgressInfo) info _ => acc ++ [info]) "" envsAllExist
        []).1.total_tracks = 1 ∧
    (download_tracks "dl" tracksNoUrl { source_id := "id", title := "t" }
        (fun (acc : List ProgressInfo) info _ => acc ++ [info]) "" envsAllExist
        []).1.failed_downloads = ["a"] := by
  refine ⟨?_, ?_, ?_⟩ <;> decide

/-- C10, counterexample. In the structure `{A: {f: 0}, B: {f: 7}}` the first
depth-first match for `"f"` has declared size 0, yet the lookup returns 7:
a size-0 match inside a folder is skipped in favour of a later positive
match, so the lookup does not return the first match's size. -/
theorem C10_counterexample :
    get_file_size_from_structure fsZeroFirst "f" = 7 ∧
    dfsMatches "f" fsZeroFirst = [0, 7] ∧ (7 : ℕ) ≠ 0 := by
  refine ⟨?_, ?_, ?_⟩ <;> decide

/-- C8: with the sample history `[(t=0, bytes=0, total=1000),
(t=10, bytes=500, total=1000)]` and a current progress strictly between 0 and
100, `_calculate_eta` takes the byte path with rate
`(500 - 0)/(10 - 0) = 50` bytes/s, an ETA of `⌊500/50⌋ = 10` seconds
(remembered in `_last_eta_seconds`), formatted `"00:10"`. -/
theorem C8_eta (p : ℚ) (h1 : 0 < p) (h2 : p < 100) :
    (calculate_eta pmTwoSamples p 10).2 = "00:10" ∧
    (calculate_eta pmTwoSamples p 10).1.last_eta_seconds = some 10 ∧
    ((pmTwoSamples.progress_history.getLastI.downloaded_bytes : ℚ) -
        (pmTwoSamples.progress_history.headI.downloaded_bytes : ℚ)) /
      (pmTwoSamples.progress_history.getLastI.time -
        pmTwoSamples.progress_history.headI.time) = 50 := by
  have hg : ¬(p ≤ 0 ∨ 100 ≤ p) := by rintro (h | h) <;> linarith
  refine ⟨?_, ?_, by decide⟩
  · unfold calculate_eta calculate_eta_assign
    rw [if_neg hg]
    rfl
  · unfold calculate_eta calculate_eta_assign
    rw [if_neg hg]
    rfl

/-- C8, witness: the theorem instantiated at current progress 50. -/
theorem C8_eta_witness :
    (calculate_eta pmTwoSamples 50 10).2 = "00:10" ∧
    (calculate_eta pmTwoSamples 50 10).1.last_eta_seconds = some 10 ∧
    ((pmTwoSamples.progress_history.getLastI.downloaded_bytes : ℚ) -
        (pmTwoSamples.progress_history.headI.downloaded_bytes : ℚ)) /
      (pmTwoSamples.progress_history.getLastI.time -
        pmTwoSamples.progress_history.headI.time) = 50 :=
  C8_eta 50 (by norm_num) (by norm_num)

end VCP
